import Mathlib

/-!
# Cube-planet Mars rover: shallow embedding

Embedding of the navigation core of the repository in Lean 4:

* `RoverController.ts` — rover state machine: `turnLeft`, `turnRight`,
  `moveForward` / `moveBackward` (both via the private `move(steps)`),
  `calculateFaceTransition` (the 24-rule cube topology), `rotateDirection`.
* `ObstacleManager.ts` — rejection-sampling obstacle generation and the
  `hasObstacle` query.

JavaScript `number` coordinates are modelled as `Int` (all arithmetic the
code performs on them is integer arithmetic on integer inputs).  The
controller's mutable `this.state` is passed explicitly; after every
operation the stored state equals the returned `newState` (on a blocked
move the code leaves `this.state` untouched and returns a copy of it, on a
successful move it commits the candidate and returns a copy of it), so the
functional model returns just the `MoveResult`.
-/

namespace MarsRover

/-- `type Direction = 'N' | 'S' | 'E' | 'W'` from `RoverController.ts`. -/
inductive Direction where
  | N | E | S | W
deriving DecidableEq, Repr, Fintype

/-- The `CubeFace` enumeration (`FRONT:0, RIGHT:1, BACK:2, LEFT:3, TOP:4, BOTTOM:5`). -/
inductive Face where
  | FRONT | RIGHT | BACK | LEFT | TOP | BOTTOM
deriving DecidableEq, Repr, Fintype

/-- Numeric value of a `CubeFace` as declared in the source enumeration. -/
def faceNum : Face → Int
  | .FRONT => 0
  | .RIGHT => 1
  | .BACK => 2
  | .LEFT => 3
  | .TOP => 4
  | .BOTTOM => 5

/-- `const GRID_SIZE = 10` of `RoverController.ts`. -/
def GRID_SIZE : Int := 10

/-- Index of a direction in the array `['N', 'E', 'S', 'W']` used by
`rotateDirection`. -/
def dirIndex : Direction → Int
  | .N => 0
  | .E => 1
  | .S => 2
  | .W => 3

/-- `RoverController.rotateDirection(direction, steps)`:
`directions[(currentIndex + steps + 4) % 4]`.  Every call site passes
`steps ∈ {-1, 1, 2}`, where `currentIndex + steps + 4 ≥ 0` and JavaScript
`%` agrees with `Int.emod`. -/
def rotateDirection (direction : Direction) (steps : Int) : Direction :=
  let newIndex := (dirIndex direction + steps + 4).emod 4
  if newIndex = 0 then .N
  else if newIndex = 1 then .E
  else if newIndex = 2 then .S
  else .W

/-- The record `{ face, x, y, direction }` returned by
`calculateFaceTransition`. -/
structure Transition where
  face : Face
  x : Int
  y : Int
  direction : Direction
deriving DecidableEq, Repr

/-- `RoverController.calculateFaceTransition(currentFace, exitDirection, newX, newY)`,
translated branch by branch from the `switch` in the source.  (The source's
`default:` arm is unreachable: the `switch` enumerates all six `CubeFace`
values, which the `Face` inductive captures exactly.) -/
def calculateFaceTransition (currentFace : Face) (exitDirection : Direction)
    (newX newY : Int) : Transition :=
  let max := GRID_SIZE - 1
  match currentFace with
  | .FRONT =>
    if newY < 0 then ⟨.TOP, newX, max, exitDirection⟩
    else if newY ≥ GRID_SIZE then ⟨.BOTTOM, newX, 0, exitDirection⟩
    else if newX < 0 then ⟨.LEFT, max, newY, exitDirection⟩
    else ⟨.RIGHT, 0, newY, exitDirection⟩
  | .RIGHT =>
    if newY < 0 then ⟨.TOP, max, max - newX, rotateDirection exitDirection 1⟩
    else if newY ≥ GRID_SIZE then ⟨.BOTTOM, max, newX, rotateDirection exitDirection (-1)⟩
    else if newX < 0 then ⟨.FRONT, max, newY, exitDirection⟩
    else ⟨.BACK, 0, newY, exitDirection⟩
  | .BACK =>
    if newY < 0 then ⟨.TOP, max - newX, 0, rotateDirection exitDirection 2⟩
    else if newY ≥ GRID_SIZE then ⟨.BOTTOM, max - newX, max, rotateDirection exitDirection 2⟩
    else if newX < 0 then ⟨.RIGHT, max, newY, exitDirection⟩
    else ⟨.LEFT, 0, newY, exitDirection⟩
  | .LEFT =>
    if newY < 0 then ⟨.TOP, 0, newX, rotateDirection exitDirection (-1)⟩
    else if newY ≥ GRID_SIZE then ⟨.BOTTOM, 0, max - newX, rotateDirection exitDirection 1⟩
    else if newX < 0 then ⟨.BACK, max, newY, exitDirection⟩
    else ⟨.FRONT, 0, newY, exitDirection⟩
  | .TOP =>
    if newY < 0 then ⟨.BACK, max - newX, 0, rotateDirection exitDirection 2⟩
    else if newY ≥ GRID_SIZE then ⟨.FRONT, newX, 0, exitDirection⟩
    else if newX < 0 then ⟨.LEFT, newY, 0, rotateDirection exitDirection 1⟩
    else ⟨.RIGHT, max - newY, 0, rotateDirection exitDirection (-1)⟩
  | .BOTTOM =>
    if newY < 0 then ⟨.FRONT, newX, max, exitDirection⟩
    else if newY ≥ GRID_SIZE then ⟨.BACK, max - newX, max, rotateDirection exitDirection 2⟩
    else if newX < 0 then ⟨.LEFT, max - newY, max, rotateDirection exitDirection (-1)⟩
    else ⟨.RIGHT, newY, max, rotateDirection exitDirection 1⟩

/-- `interface RoverState { x; y; face; direction }`. -/
structure RoverState where
  x : Int
  y : Int
  face : Face
  direction : Direction
deriving DecidableEq, Repr

/-- `interface MoveResult { success; blocked; newState }`. -/
structure MoveResult where
  success : Bool
  blocked : Bool
  newState : RoverState
deriving DecidableEq, Repr

/-- `interface ObstacleChecker { hasObstacle(face: number, x, y): boolean }`. -/
abbrev ObstacleChecker := Int → Int → Int → Bool

/-- The candidate next state computed by `RoverController.move(steps)` before
the obstacle check: the unit delta along the current direction
(`forward = steps > 0`), then, if one coordinate left `[0, GRID_SIZE)`, the
face transition. -/
def moveCandidate (state : RoverState) (steps : Int) : RoverState :=
  let forward := steps > 0
  let newX :=
    match state.direction with
    | .E => state.x + (if forward then 1 else -1)
    | .W => state.x + (if forward then -1 else 1)
    | _ => state.x
  let newY :=
    match state.direction with
    | .N => state.y + (if forward then -1 else 1)
    | .S => state.y + (if forward then 1 else -1)
    | _ => state.y
  if newX < 0 ∨ newX ≥ GRID_SIZE ∨ newY < 0 ∨ newY ≥ GRID_SIZE then
    let t := calculateFaceTransition state.face state.direction newX newY
    ⟨t.x, t.y, t.face, t.direction⟩
  else
    ⟨newX, newY, state.face, state.direction⟩

/-- The guard `this.obstacleChecker && this.obstacleChecker.hasObstacle(newFace, newX, newY)`
of `RoverController.move`; `none` models a controller on which
`setObstacleChecker` was never called (`obstacleChecker === null`). -/
def checkBlocked (checker : Option ObstacleChecker) (candidate : RoverState) : Bool :=
  match checker with
  | none => false
  | some ch => ch (faceNum candidate.face) candidate.x candidate.y

/-- `RoverController.move(steps)`: compute the candidate, consult the
obstacle checker, and either reject (state unchanged, `blocked`) or commit. -/
def move (checker : Option ObstacleChecker) (state : RoverState) (steps : Int) :
    MoveResult :=
  let candidate := moveCandidate state steps
  if checkBlocked checker candidate then
    { success := false, blocked := true, newState := state }
  else
    { success := true, blocked := false, newState := candidate }

/-- `RoverController.moveForward()` = `move(1)`. -/
def moveForward (checker : Option ObstacleChecker) (state : RoverState) : MoveResult :=
  move checker state 1

/-- `RoverController.moveBackward()` = `move(-1)`. -/
def moveBackward (checker : Option ObstacleChecker) (state : RoverState) : MoveResult :=
  move checker state (-1)

/-- `RoverController.turnLeft()`: `N→W, W→S, S→E, E→N`; always succeeds. -/
def turnLeft (state : RoverState) : MoveResult :=
  let d : Direction :=
    match state.direction with
    | .N => .W
    | .W => .S
    | .S => .E
    | .E => .N
  { success := true, blocked := false, newState := { state with direction := d } }

/-- `RoverController.turnRight()`: `N→E, E→S, S→W, W→N`; always succeeds. -/
def turnRight (state : RoverState) : MoveResult :=
  let d : Direction :=
    match state.direction with
    | .N => .E
    | .E => .S
    | .S => .W
    | .W => .N
  { success := true, blocked := false, newState := { state with direction := d } }

/-!
## Spec-side transition table (section 4.2 of the specification)

The following definitions transcribe the 24-row table of spec §4.2 *from the
spec's words* (not from the code), to be compared with
`calculateFaceTransition`: each row is keyed by (face, exit edge), gives the
destination face, the new cell as a function of the still-valid coordinate
with `max = N − 1 = 9`, and a heading rotation delta in `{0, +1, −1, +2}`
applied clockwise modulo 4 to the pre-crossing heading.
-/

namespace Spec

/-- An exit edge of a face, as the spec keys its table: N means `y < 0`,
S means `y ≥ N`, W means `x < 0`, E means `x ≥ N`. -/
inductive Edge where
  | N | S | E | W
deriving DecidableEq, Repr, Fintype

/-- One clockwise step in the spec's fixed cycle N→E→S→W→N. -/
def cw : Direction → Direction
  | .N => .E
  | .E => .S
  | .S => .W
  | .W => .N

/-- Rotate a heading clockwise by `delta` steps, modulo 4 (negative deltas
rotate counter-clockwise). -/
def rotateCW (d : Direction) (delta : Int) : Direction :=
  Nat.iterate cw (delta.emod 4).toNat d

/-- The 24 rows of the spec table: destination face, new cell as a function
of the still-valid coordinate (with `max = 9`), and the heading delta. -/
def rule (f : Face) (e : Edge) : Face × (Int → Int × Int) × Int :=
  let max : Int := 9
  match f, e with
  | .FRONT, .N => (.TOP, fun x => (x, max), 0)
  | .FRONT, .S => (.BOTTOM, fun x => (x, 0), 0)
  | .FRONT, .W => (.LEFT, fun y => (max, y), 0)
  | .FRONT, .E => (.RIGHT, fun y => (0, y), 0)
  | .RIGHT, .N => (.TOP, fun x => (max, max - x), 1)
  | .RIGHT, .S => (.BOTTOM, fun x => (max, x), -1)
  | .RIGHT, .W => (.FRONT, fun y => (max, y), 0)
  | .RIGHT, .E => (.BACK, fun y => (0, y), 0)
  | .BACK, .N => (.TOP, fun x => (max - x, 0), 2)
  | .BACK, .S => (.BOTTOM, fun x => (max - x, max), 2)
  | .BACK, .W => (.RIGHT, fun y => (max, y), 0)
  | .BACK, .E => (.LEFT, fun y => (0, y), 0)
  | .LEFT, .N => (.TOP, fun x => (0, x), -1)
  | .LEFT, .S => (.BOTTOM, fun x => (0, max - x), 1)
  | .LEFT, .W => (.BACK, fun y => (max, y), 0)
  | .LEFT, .E => (.FRONT, fun y => (0, y), 0)
  | .TOP, .N => (.BACK, fun x => (max - x, 0), 2)
  | .TOP, .S => (.FRONT, fun x => (x, 0), 0)
  | .TOP, .W => (.LEFT, fun y => (y, 0), 1)
  | .TOP, .E => (.RIGHT, fun y => (max - y, 0), -1)
  | .BOTTOM, .N => (.FRONT, fun x => (x, max), 0)
  | .BOTTOM, .S => (.BACK, fun x => (max - x, max), 2)
  | .BOTTOM, .W => (.LEFT, fun y => (max - y, max), -1)
  | .BOTTOM, .E => (.RIGHT, fun y => (y, max), 1)

/-- The spec's resolution of an edge crossing: look up the rule for
(face, edge), feed it the still-valid coordinate, rotate the pre-crossing
heading by the rule's delta. -/
def transition (f : Face) (e : Edge) (d : Direction) (c : Int) : Transition :=
  let r := rule f e
  let cell := r.2.1 c
  ⟨r.1, cell.1, cell.2, rotateCW d r.2.2⟩

/-- The pre-crossing, still-unwrapped coordinate pair that exits through a
given edge with still-valid coordinate `c`: exactly one axis is out of
bounds by one step. -/
def edgeCoords (e : Edge) (c : Int) : Int × Int :=
  match e with
  | .N => (c, -1)
  | .S => (c, 10)
  | .W => (-1, c)
  | .E => (10, c)

end Spec

/-!
## Operation sequences and state validity
-/

/-- A rover state is valid when both coordinates lie in `[0, 9]` (face and
heading validity are enforced by the `Face` and `Direction` types, mirroring
the source's `CubeFace` enumeration and `Direction` union). -/
def validState (s : RoverState) : Prop :=
  0 ≤ s.x ∧ s.x ≤ 9 ∧ 0 ≤ s.y ∧ s.y ≤ 9

instance (s : RoverState) : Decidable (validState s) := by
  unfold validState; infer_instance

/-- One of the four public operations of `RoverController`. -/
inductive Op where
  | TL | TR | MF | MB
deriving DecidableEq, Repr

/-- Run one operation; the controller's stored state after the call equals
the returned `newState` (unchanged on a blocked move, the committed
candidate otherwise). -/
def applyOp (checker : Option ObstacleChecker) (op : Op) (s : RoverState) :
    RoverState :=
  match op with
  | .TL => (turnLeft s).newState
  | .TR => (turnRight s).newState
  | .MF => (moveForward checker s).newState
  | .MB => (moveBackward checker s).newState

/-- Run a finite sequence of operations from a given state. -/
def runOps (checker : Option ObstacleChecker) (ops : List Op) (s : RoverState) :
    RoverState :=
  ops.foldl (fun t op => applyOp checker op t) s

/-- The x-delta of an in-face unit step, as the spec states it: forward E is
`+1`, forward W is `−1`, backward is the opposite, N/S leave x unchanged. -/
def stepDX (d : Direction) (forward : Bool) : Int :=
  match d with
  | .E => if forward then 1 else -1
  | .W => if forward then -1 else 1
  | _ => 0

/-- The y-delta of an in-face unit step: forward N is `−1`, forward S is
`+1`, backward is the opposite, E/W leave y unchanged. -/
def stepDY (d : Direction) (forward : Bool) : Int :=
  match d with
  | .N => if forward then -1 else 1
  | .S => if forward then 1 else -1
  | _ => 0

/-!
## ObstacleManager

`ObstacleManager.generateObstacles` rejection-samples `(face, x, y)` with
`face = Math.floor(Math.random()*6)` and `x, y = Math.floor(Math.random()*10)`
— always integers in range, modelled as a stream `Nat → Fin 6 × Fin 10 × Fin 10`
of sampling outcomes, one per loop attempt.  The string keys
`"face,x,y"` of the source's `Set`/`Map` encode integer triples injectively,
so the generated set is modelled as a duplicate-free list of `Int` triples,
and `hasObstacle` (a `Map` lookup by face, then a `Set` lookup by `"x,y"`)
as membership of the queried triple in that list.  The `while` loop guard
`generated.size < OBSTACLE_COUNT && attempts < maxAttempts` becomes
structural recursion on the remaining attempt budget (`maxAttempts − attempts`),
which is exactly the loop's termination argument.
-/

/-- `OBSTACLE_COUNT = Math.floor(GRID_SIZE * GRID_SIZE * 6 * 0.10) = 60`. -/
def OBSTACLE_COUNT : Nat := 60

/-- `maxAttempts = OBSTACLE_COUNT * 10`. -/
def maxAttempts : Nat := OBSTACLE_COUNT * 10

/-- One outcome of the three `Math.floor(Math.random()*k)` draws of a loop
iteration: a face in `0..5` and coordinates in `0..9`. -/
abbrev Sample := Fin 6 × Fin 10 × Fin 10

/-- The integer triple a sample inserts (the `"face,x,y"` key). -/
def sampleTriple (s : Sample) : Int × Int × Int :=
  (((s.1 : Nat) : Int), ((s.2.1 : Nat) : Int), ((s.2.2 : Nat) : Int))

/-- The generation loop of `ObstacleManager.generateObstacles`: while the set
is below `OBSTACLE_COUNT` and attempts remain, draw a sample; skip it when it
equals the start key or is already present, insert it otherwise.  `fuel` is
the remaining attempt budget; the second component of the result counts the
attempts consumed. -/
def genLoop (startKey : Int × Int × Int) (stream : Nat → Sample) :
    Nat → Nat → List (Int × Int × Int) → List (Int × Int × Int) × Nat
  | 0, attempts, generated => (generated, attempts)
  | fuel + 1, attempts, generated =>
    if generated.length < OBSTACLE_COUNT then
      let key := sampleTriple (stream attempts)
      if key = startKey ∨ key ∈ generated then
        genLoop startKey stream fuel (attempts + 1) generated
      else
        genLoop startKey stream fuel (attempts + 1) (key :: generated)
    else (generated, attempts)

/-- `new ObstacleManager(startFace, startX, startY)`: run the generation loop
with the full attempt budget from an empty set. -/
def generateObstacles (startFace startX startY : Int) (stream : Nat → Sample) :
    List (Int × Int × Int) :=
  (genLoop (startFace, startX, startY) stream maxAttempts 0 []).1

/-- `ObstacleManager.hasObstacle(face, x, y)`: the `Map` lookup by face
followed by the `"x,y"` set query, i.e. membership of the triple. -/
def hasObstacle (obstacles : List (Int × Int × Int)) (face x y : Int) : Bool :=
  decide ((face, x, y) ∈ obstacles)

/-- All coordinates a generated obstacle triple can carry: face in `0..5`,
x and y in `0..9`. -/
def inRangeTriple (t : Int × Int × Int) : Prop :=
  0 ≤ t.1 ∧ t.1 ≤ 5 ∧ 0 ≤ t.2.1 ∧ t.2.1 ≤ 9 ∧ 0 ≤ t.2.2 ∧ t.2.2 ≤ 9

/-!
## Theorems
-/

/-- Every sampled triple is in range: the three `Math.floor(Math.random()*k)`
draws yield a face in `0..5` and coordinates in `0..9`. -/
theorem sampleTriple_inRange (s : Sample) : inRangeTriple (sampleTriple s) := by
  obtain ⟨a, b, c⟩ := s
  have ha := a.isLt
  have hb := b.isLt
  have hc := c.isLt
  simp only [sampleTriple, inRangeTriple]
  omega

/-- Loop invariants of `genLoop`: the start key never enters the set, no
duplicate is ever inserted, the set never exceeds `OBSTACLE_COUNT`, every
member is in range or was already present, and at most `fuel` further
attempts are consumed. -/
theorem genLoop_invariants (startKey : Int × Int × Int) (stream : Nat → Sample) :
    ∀ (fuel attempts : Nat) (generated : List (Int × Int × Int)),
      startKey ∉ generated → generated.Nodup →
      generated.length ≤ OBSTACLE_COUNT →
      startKey ∉ (genLoop startKey stream fuel attempts generated).1 ∧
      (genLoop startKey stream fuel attempts generated).1.Nodup ∧
      (genLoop startKey stream fuel attempts generated).1.length ≤ OBSTACLE_COUNT ∧
      (genLoop startKey stream fuel attempts generated).2 ≤ attempts + fuel ∧
      (∀ t ∈ (genLoop startKey stream fuel attempts generated).1,
        t ∈ generated ∨ inRangeTriple t) := by
  intro fuel
  induction fuel with
  | zero =>
    intro attempts generated h1 h2 h3
    simp only [genLoop]
    exact ⟨h1, h2, h3, Nat.le_refl _, fun t ht => Or.inl ht⟩
  | succ n ih =>
    intro attempts generated h1 h2 h3
    by_cases hlen : generated.length < OBSTACLE_COUNT
    · by_cases hkey : sampleTriple (stream attempts) = startKey ∨
        sampleTriple (stream attempts) ∈ generated
      · have hrec := ih (attempts + 1) generated h1 h2 h3
        simp only [genLoop, if_pos hlen, if_pos hkey]
        exact ⟨hrec.1, hrec.2.1, hrec.2.2.1, by omega,
          fun t ht => hrec.2.2.2.2 t ht⟩
      · push_neg at hkey
        obtain ⟨hne, hnm⟩ := hkey
        have h1' : startKey ∉ sampleTriple (stream attempts) :: generated := by
          intro hmem
          rcases List.mem_cons.mp hmem with heq | hmem2
          · exact hne heq.symm
          · exact h1 hmem2
        have h2' : (sampleTriple (stream attempts) :: generated).Nodup :=
          List.nodup_cons.mpr ⟨hnm, h2⟩
        have h3' : (sampleTriple (stream attempts) :: generated).length ≤
            OBSTACLE_COUNT := by
          simp only [List.length_cons]
          omega
        have hrec := ih (attempts + 1) _ h1' h2' h3'
        simp only [genLoop, if_pos hlen,
          if_neg (by push_neg; exact ⟨hne, hnm⟩ :
            ¬(sampleTriple (stream attempts) = startKey ∨
              sampleTriple (stream attempts) ∈ generated))]
        refine ⟨hrec.1, hrec.2.1, hrec.2.2.1, by omega, fun t ht => ?_⟩
        rcases hrec.2.2.2.2 t ht with hin | hr
        · rcases List.mem_cons.mp hin with heq | hin2
          · exact Or.inr (heq ▸ sampleTriple_inRange (stream attempts))
          · exact Or.inl hin2
        · exact Or.inr hr
    · simp only [genLoop, if_neg hlen]
      exact ⟨h1, h2, h3, by omega, fun t ht => Or.inl ht⟩

/-- C1: for every current face, exit direction, and pre-crossing coordinate
pair with exactly one axis out of bounds by one step,
`calculateFaceTransition` returns exactly the destination face, new cell and
heading prescribed by the 24-row table of spec §4.2 (cell as the stated
function of the still-valid coordinate with `max = 9`, heading as the
pre-crossing heading rotated clockwise by the stated delta modulo 4). -/
theorem calculateFaceTransition_matches_spec_table :
    ∀ (f : Face) (e : Spec.Edge) (d : Direction) (c : Fin 10),
      calculateFaceTransition f d (Spec.edgeCoords e ((c : Nat) : Int)).1
        (Spec.edgeCoords e ((c : Nat) : Int)).2 =
      Spec.transition f e d ((c : Nat) : Int) := by
  decide

/-- C2 (failing input): at `RIGHT, (5,0), heading N` — a boundary-crossing
state with no obstacles — `moveForward` lands on `TOP, (9,4), heading E`, and
`moveBackward` from there moves in-face to `TOP, (8,4), heading E`, which is
not the pre-crossing state: forward-then-backward across this face boundary
does not return the rover. -/
theorem forward_backward_roundtrip_fails_at_right_north :
    moveForward none ⟨5, 0, .RIGHT, .N⟩ =
      ⟨true, false, ⟨9, 4, .TOP, .E⟩⟩ ∧
    moveBackward none ⟨9, 4, .TOP, .E⟩ =
      ⟨true, false, ⟨8, 4, .TOP, .E⟩⟩ ∧
    (moveBackward none (moveForward none ⟨5, 0, .RIGHT, .N⟩).newState).newState ≠
      (⟨5, 0, .RIGHT, .N⟩ : RoverState) := by
  decide

/-- C3: for every state, step direction, and obstacle checker that reports
the candidate cell of the move as blocked, `move` returns
`success = false`, `blocked = true`, and `newState` identical to the
pre-call state (the stored state, which equals the returned `newState`, is
unchanged); `moveForward` and `moveBackward` are `move 1` and `move (-1)`. -/
theorem move_blocked_leaves_state_unchanged (checker : ObstacleChecker)
    (s : RoverState) (steps : Int)
    (h : checker (faceNum (moveCandidate s steps).face)
      (moveCandidate s steps).x (moveCandidate s steps).y = true) :
    move (some checker) s steps =
      { success := false, blocked := true, newState := s } := by
  simp only [move, checkBlocked, h, if_pos]

theorem move_blocked_leaves_state_unchanged_witness :
    (fun _ _ _ => true : ObstacleChecker)
      (faceNum (moveCandidate ⟨5, 5, .FRONT, .N⟩ 1).face)
      (moveCandidate ⟨5, 5, .FRONT, .N⟩ 1).x
      (moveCandidate ⟨5, 5, .FRONT, .N⟩ 1).y = true ∧
    move (some (fun _ _ _ => true)) ⟨5, 5, .FRONT, .N⟩ 1 =
      { success := false, blocked := true,
        newState := (⟨5, 5, .FRONT, .N⟩ : RoverState) } :=
  ⟨by decide,
    move_blocked_leaves_state_unchanged (fun _ _ _ => true)
      ⟨5, 5, .FRONT, .N⟩ 1 (by decide)⟩

/-- Exhaustive check over the valid grid: the candidate state of a unit move
(forward or backward) from any valid state is itself valid. -/
theorem moveCandidate_valid_fin :
    ∀ (f : Face) (x y : Fin 10) (d : Direction) (b : Bool),
      validState (moveCandidate ⟨((x : Nat) : Int), ((y : Nat) : Int), f, d⟩
        (if b then 1 else -1)) := by
  decide

/-- The candidate of a unit move from a valid state is valid. -/
theorem moveCandidate_valid (s : RoverState) (h : validState s) (b : Bool) :
    validState (moveCandidate s (if b then 1 else -1)) := by
  obtain ⟨hx0, hx9, hy0, hy9⟩ := h
  have hx : s.x.toNat < 10 := by omega
  have hy : s.y.toNat < 10 := by omega
  have hfin := moveCandidate_valid_fin s.face ⟨s.x.toNat, hx⟩ ⟨s.y.toNat, hy⟩
    s.direction b
  simp only [Fin.val_mk, Int.toNat_of_nonneg hx0, Int.toNat_of_nonneg hy0] at hfin
  exact hfin

/-- A move either leaves the state unchanged (blocked) or commits the
candidate. -/
theorem move_newState_cases (checker : Option ObstacleChecker)
    (s : RoverState) (steps : Int) :
    (move checker s steps).newState = s ∨
    (move checker s steps).newState = moveCandidate s steps := by
  by_cases hb : checkBlocked checker (moveCandidate s steps) = true
  · left; simp [move, hb]
  · right; simp [move, hb]

/-- Each single operation preserves state validity, for any checker. -/
theorem applyOp_valid (checker : Option ObstacleChecker) (op : Op)
    (s : RoverState) (h : validState s) : validState (applyOp checker op s) := by
  cases op with
  | TL => simpa [applyOp, turnLeft, validState] using h
  | TR => simpa [applyOp, turnRight, validState] using h
  | MF =>
    rcases move_newState_cases checker s 1 with he | he <;>
      simp only [applyOp, moveForward, he]
    · exact h
    · simpa using moveCandidate_valid s h true
  | MB =>
    rcases move_newState_cases checker s (-1) with he | he <;>
      simp only [applyOp, moveBackward, he]
    · exact h
    · simpa using moveCandidate_valid s h false

/-- C4: from any valid initial state (coordinates in `[0,9]`; face and
heading valid by type), any finite sequence of `turnLeft`, `turnRight`,
`moveForward`, `moveBackward` under any obstacle checker keeps the state
valid after every operation (every such sequence being a prefix of another,
this covers the state after each step). -/
theorem runOps_preserves_validState (checker : Option ObstacleChecker)
    (ops : List Op) (s : RoverState) (h : validState s) :
    validState (runOps checker ops s) := by
  induction ops generalizing s with
  | nil => exact h
  | cons op rest ih =>
    exact ih (applyOp checker op s) (applyOp_valid checker op s h)

theorem runOps_preserves_validState_witness :
    validState (⟨5, 5, .FRONT, .N⟩ : RoverState) ∧
    validState (runOps none [Op.MF, Op.TR, Op.MB, Op.TL] ⟨5, 5, .FRONT, .N⟩) :=
  ⟨by decide,
    runOps_preserves_validState none [Op.MF, Op.TR, Op.MB, Op.TL]
      ⟨5, 5, .FRONT, .N⟩ (by decide)⟩

/-- C5 (counterexample): at `RIGHT, (5,0), heading N` with no obstacles,
`moveForward` does not yield the claimed cell `(4, 9)`: the code (matching
its own transition table) produces `x = max = 9`, `y = max − 5 = 4`. -/
theorem right_north_scenario_claimed_cell_false :
    ¬((moveForward none ⟨5, 0, .RIGHT, .N⟩).success = true ∧
      (moveForward none ⟨5, 0, .RIGHT, .N⟩).newState.face = .TOP ∧
      (moveForward none ⟨5, 0, .RIGHT, .N⟩).newState.direction = .E ∧
      (moveForward none ⟨5, 0, .RIGHT, .N⟩).newState.x = 4 ∧
      (moveForward none ⟨5, 0, .RIGHT, .N⟩).newState.y = 9) := by
  decide

/-- C5 (amended): at `RIGHT, (5,0), heading N` with no obstacles,
`moveForward` returns `success = true` with new face `TOP`, new heading
`E` (N rotated +1 clockwise), and cell `(9, 4)` — that is, `x = max = 9`
and `y = max − 5 = 4` for `N = 10`. -/
theorem right_north_scenario_result :
    moveForward none ⟨5, 0, .RIGHT, .N⟩ =
      { success := true, blocked := false,
        newState := (⟨9, 4, .TOP, .E⟩ : RoverState) } := by
  decide

/-- C6: when the unit step stays within `[0,9]` on both axes and the
candidate cell is not blocked, `move` (forward for `b = true`, backward for
`b = false`) succeeds, keeps face and heading, and changes only the
coordinate on the heading's axis by exactly the stated ±1 delta
(`stepDX`/`stepDY`), leaving the other coordinate unchanged. -/
theorem move_inFace_frame (checker : Option ObstacleChecker) (s : RoverState)
    (b : Bool)
    (hx : 0 ≤ s.x + stepDX s.direction b ∧ s.x + stepDX s.direction b ≤ 9)
    (hy : 0 ≤ s.y + stepDY s.direction b ∧ s.y + stepDY s.direction b ≤ 9)
    (hnb : checkBlocked checker (moveCandidate s (if b then 1 else -1)) = false) :
    move checker s (if b then 1 else -1) =
      { success := true, blocked := false,
        newState := ⟨s.x + stepDX s.direction b, s.y + stepDY s.direction b,
          s.face, s.direction⟩ } := by
  obtain ⟨x, y, f, d⟩ := s
  have hc : moveCandidate ⟨x, y, f, d⟩ (if b then 1 else -1) =
      ⟨x + stepDX d b, y + stepDY d b, f, d⟩ := by
    cases b <;> cases d <;>
      (simp [stepDX, stepDY] at hx hy
       simp [moveCandidate, GRID_SIZE, stepDX, stepDY]
       try (intro hoob; exact absurd hoob (by omega)))
  rw [hc] at hnb
  simp only [move, hc, hnb, Bool.false_eq_true, if_false]

theorem move_inFace_frame_witness :
    (0 ≤ (5 : Int) + stepDX Direction.N true ∧
      (5 : Int) + stepDX Direction.N true ≤ 9) ∧
    (0 ≤ (5 : Int) + stepDY Direction.N true ∧
      (5 : Int) + stepDY Direction.N true ≤ 9) ∧
    checkBlocked none (moveCandidate ⟨5, 5, .FRONT, .N⟩ (if true then 1 else -1)) =
      false ∧
    move none ⟨5, 5, .FRONT, .N⟩ (if true then 1 else -1) =
      { success := true, blocked := false,
        newState := ⟨(5 : Int) + stepDX Direction.N true,
          (5 : Int) + stepDY Direction.N true, .FRONT, .N⟩ } :=
  ⟨by decide, by decide, by decide,
    move_inFace_frame none ⟨5, 5, .FRONT, .N⟩ true (by decide) (by decide)
      (by decide)⟩

/-- C7: `turnRight` advances the heading one clockwise step in the cycle
N→E→S→W→N and `turnLeft` one counter-clockwise step, both return
`success = true` and `blocked = false` (they take no obstacle input at all)
and change only the heading; `turnLeft` after `turnRight` restores the
state, and four successive `turnLeft` calls restore the state. -/
theorem turn_properties (s : RoverState) :
    turnRight s = { success := true, blocked := false,
                    newState := { s with direction := Spec.cw s.direction } } ∧
    turnLeft s = { success := true, blocked := false,
                   newState := { s with
                     direction := Spec.rotateCW s.direction (-1) } } ∧
    (turnLeft (turnRight s).newState).newState = s ∧
    (turnLeft (turnLeft (turnLeft (turnLeft s).newState).newState).newState).newState
      = s := by
  obtain ⟨x, y, f, d⟩ := s
  cases d <;> exact ⟨rfl, rfl, rfl, rfl⟩

/-- C10: with no obstacle checker installed (`setObstacleChecker` never
called, checker `null`), every `moveForward` and `moveBackward` returns
`success = true` and `blocked = false`: blocking is impossible and every
move commits its candidate. -/
theorem move_without_checker_always_succeeds (s : RoverState) :
    moveForward none s = { success := true, blocked := false,
                           newState := moveCandidate s 1 } ∧
    moveBackward none s = { success := true, blocked := false,
                            newState := moveCandidate s (-1) } := by
  constructor <;> simp [moveForward, moveBackward, move, checkBlocked]

/-- C8: for every start cell and every outcome of the random sampling,
construction terminates with the loop consuming at most
`maxAttempts = 10 * OBSTACLE_COUNT = 600` attempts, and the resulting
obstacle set has no duplicate triples, has at most `OBSTACLE_COUNT = 60`
members, and never contains the start cell, so `hasObstacle` at the start
cell is `false`. -/
theorem generateObstacles_bounds (startFace startX startY : Int)
    (stream : Nat → Sample) :
    (genLoop (startFace, startX, startY) stream maxAttempts 0 []).2 ≤
      maxAttempts ∧
    (generateObstacles startFace startX startY stream).Nodup ∧
    (generateObstacles startFace startX startY stream).length ≤ OBSTACLE_COUNT ∧
    (startFace, startX, startY) ∉ generateObstacles startFace startX startY stream ∧
    hasObstacle (generateObstacles startFace startX startY stream)
      startFace startX startY = false := by
  have h := genLoop_invariants (startFace, startX, startY) stream maxAttempts 0 []
    (List.not_mem_nil _) List.nodup_nil (by simp)
  refine ⟨by simpa using h.2.2.2.1, h.2.1, h.2.2.1, h.1, ?_⟩
  simp only [hasObstacle, generateObstacles, decide_eq_false_iff_not]
  exact h.1

/-- Members of the generated obstacle set all carry a face in `0..5` and
coordinates in `0..9`. -/
theorem generateObstacles_mem_inRange (startFace startX startY : Int)
    (stream : Nat → Sample) (t : Int × Int × Int)
    (ht : t ∈ generateObstacles startFace startX startY stream) :
    inRangeTriple t := by
  have h := genLoop_invariants (startFace, startX, startY) stream maxAttempts 0 []
    (List.not_mem_nil _) List.nodup_nil (by simp)
  rcases h.2.2.2.2 t ht with hnil | hr
  · exact absurd hnil (List.not_mem_nil t)
  · exact hr

/-- C9: for every face value outside `0..5` and every x or y outside
`[0, 9]`, `hasObstacle` returns `false` (and, being a total function,
never throws): invalid input is treated as "no obstacle". -/
theorem hasObstacle_invalid_input_false (startFace startX startY : Int)
    (stream : Nat → Sample) (face x y : Int)
    (h : face < 0 ∨ 5 < face ∨ x < 0 ∨ 9 < x ∨ y < 0 ∨ 9 < y) :
    hasObstacle (generateObstacles startFace startX startY stream) face x y =
      false := by
  simp only [hasObstacle, decide_eq_false_iff_not]
  intro hmem
  have hr := generateObstacles_mem_inRange startFace startX startY stream
    (face, x, y) hmem
  simp only [inRangeTriple] at hr
  omega

theorem hasObstacle_invalid_input_false_witness :
    ((99 : Int) < 0 ∨ (5 : Int) < 99 ∨ (5 : Int) < 0 ∨ (9 : Int) < 5 ∨
      (5 : Int) < 0 ∨ (9 : Int) < 5) ∧
    hasObstacle (generateObstacles 0 0 0 (fun _ => (0, 0, 0))) 99 5 5 = false :=
  ⟨by decide,
    hasObstacle_invalid_input_false 0 0 0 (fun _ => (0, 0, 0)) 99 5 5 (by decide)⟩

end MarsRover
